import Mathlib

/-!
Shallow embedding of the delimiter-balance scorer of
`src/cloud9/plugins-client/ext.compile/round1.py` (repository
thelimeburner/Jabberwocky) and of its student-record update function.

Modelling conventions:
* A text line is a `List Char`; a file's content is a `List (List Char)`
  (the lines the global file handle `f` still has to yield).
* The four module-level stacks `oparen`, `obracket`, `cparen`, `cbracket`
  are a `Stacks` record; Python `list.append` is `++ [ch]`, `list.pop`
  (pop of the last element) is `List.dropLast`.
* Python float division is modelled as exact division on `ℚ`; a division
  whose denominator is `0` raises `ZeroDivisionError` in Python, so
  `checkFile` returns an `Option`: `none` models the raised exception.
* `checkFile` iterates over the global file handle and mutates the global
  stacks, so the model takes the remaining file content and the stacks as
  explicit state and returns the result together with the final stacks.
-/

namespace Jabberwocky

/-- A line of text, as the scanner of `checkFile` sees it. -/
abbrev Line := List Char

/-- The module-level stacks `oparen`, `obracket`, `cparen`, `cbracket`
(round1.py lines 9-12). -/
structure Stacks where
  oparen : List Char
  obracket : List Char
  cparen : List Char
  cbracket : List Char
deriving DecidableEq, Repr

/-- The stacks as they are initialised at module load: all empty. -/
def initialStacks : Stacks := ⟨[], [], [], []⟩

/-- `error_weight = 2` (round1.py line 13). -/
def error_weight : Nat := 2

/-- The body of the character-classification loop (round1.py lines 36-44):
each significant character is appended to its family's stack, every other
character is ignored. -/
def scanChar (st : Stacks) (ch : Char) : Stacks :=
  if ch = '{' then { st with obracket := st.obracket ++ ['{'] }
  else if ch = '(' then { st with oparen := st.oparen ++ ['('] }
  else if ch = '}' then { st with cbracket := st.cbracket ++ ['}'] }
  else if ch = ')' then { st with cparen := st.cparen ++ [')'] }
  else st

/-- The inner loop `for i in range(len(line))` of `checkFile`. -/
def scanLine (st : Stacks) (line : Line) : Stacks :=
  line.foldl scanChar st

/-- The outer loop `for line in f` of `checkFile` (round1.py lines 34-44). -/
def scanFile (st : Stacks) (lines : List Line) : Stacks :=
  lines.foldl scanLine st

/-- One family's pairing loop (round1.py lines 50-57 for brackets,
66-73 for parens):

    for x in range(len(opens)):
        if (len(opens) == 0 or len(closes) == 0):
            score = score + error_weight
            break
        opens.pop()
        closes.pop()
        sp = sp + 1

`range(len(opens))` is evaluated once at loop entry, so the iteration
count is the initial length of the open stack; it is passed as `fuel`.
Returns the remaining open stack, the remaining close stack, the
successful-pair counter `sp` and the (dead) `score` accumulator. -/
def pairLoop : Nat → List Char → List Char → Nat → Nat →
    List Char × List Char × Nat × Nat
  | 0, opens, closes, sp, score => (opens, closes, sp, score)
  | fuel + 1, opens, closes, sp, score =>
    if opens.length = 0 ∨ closes.length = 0 then
      (opens, closes, sp, score + error_weight)
    else
      pairLoop fuel opens.dropLast closes.dropLast (sp + 1) score

/-- The intermediate quantities `checkFile` computes before the final
divisions (round1.py lines 47-80). -/
structure CheckCore where
  bSP : Nat
  bFP : Nat
  pSP : Nat
  pFP : Nat
  totalBPairs : Nat
  totalPPairs : Nat
  bracketScore : Nat
  parenScore : Nat
  finalStacks : Stacks
deriving DecidableEq, Repr

/-- `checkFile` up to (but not including) the two divisions: scan every
character of every remaining line into the stacks, run the bracket pairing
loop and the paren pairing loop, and read off the leftover counts
`bFP = len(obracket) + len(cbracket)`, `pFP = len(cparen) + len(oparen)`
and the totals `totalBPairs = bFP + bSP`, `totalPPairs = pFP + pSP`
(round1.py lines 34-78). -/
def checkFileCore (lines : List Line) (st : Stacks) : CheckCore :=
  let st1 := scanFile st lines
  let rb := pairLoop st1.obracket.length st1.obracket st1.cbracket 0 0
  let ob := rb.1
  let cb := rb.2.1
  let bSP := rb.2.2.1
  let bFP := ob.length + cb.length
  let rp := pairLoop st1.oparen.length st1.oparen st1.cparen 0 0
  let op := rp.1
  let cp := rp.2.1
  let pSP := rp.2.2.1
  let pFP := cp.length + op.length
  { bSP := bSP, bFP := bFP, pSP := pSP, pFP := pFP,
    totalBPairs := bFP + bSP, totalPPairs := pFP + pSP,
    bracketScore := rb.2.2.2, parenScore := rp.2.2.2,
    finalStacks := { oparen := op, obracket := ob, cparen := cp, cbracket := cb } }

/-- `checkFile` (round1.py lines 30-91): returns
`(pSR, bSR) = (float(pSP)/totalPPairs, float(bSP)/totalBPairs)`.
When either total is `0` Python raises `ZeroDivisionError` at line 81/82,
modelled as `none`.  The mutated stacks are returned alongside, since the
real function leaves them in the module-level globals. -/
def checkFile (lines : List Line) (st : Stacks) : Option (ℚ × ℚ) × Stacks :=
  let c := checkFileCore lines st
  if c.totalPPairs = 0 ∨ c.totalBPairs = 0 then (none, c.finalStacks)
  else (some ((c.pSP : ℚ) / (c.totalPPairs : ℚ),
              (c.bSP : ℚ) / (c.totalBPairs : ℚ)), c.finalStacks)

/-- Number of occurrences of a character in a line. -/
def countCharLine (ch : Char) : Line → Nat
  | [] => 0
  | c :: rest => (if c = ch then 1 else 0) + countCharLine ch rest

/-- Number of occurrences of a character in a file's lines. -/
def countChar (ch : Char) : List Line → Nat
  | [] => 0
  | l :: rest => countCharLine ch l + countChar ch rest

/-- `getTotalPairs` (round1.py lines 20-26).  The Python `if/elif/elif`
chain has no `else`, so a fall-through would return `None`; this is
modelled with `Option`. -/
def getTotalPairs (list1 : List α) (list2 : List β) : Option Nat :=
  if list1.length = list2.length then some list1.length
  else if list1.length > list2.length then some list1.length
  else if list2.length > list1.length then some list2.length
  else none

/-- The per-student record `data`.  Field set taken from the
`program_stats` row layout spelled out in
`src/cloud9/plugins-server/cloud9.analysis/updateResults.py` line 63
(`id, sid, compileT, compileF, compileTE, compileP, EPC, bSR, pSR,
level, LV`); `round1.py` reads and writes `compileTE`, `compileT` and
`EPC`.  Python integers are `ℤ`, Python floats are `ℚ`. -/
structure StudentData where
  id : ℤ
  sid : ℤ
  compileT : ℤ
  compileF : ℤ
  compileTE : ℤ
  compileP : ℤ
  EPC : ℚ
  bSR : ℚ
  pSR : ℚ
  level : ℤ
  LV : ℤ
deriving DecidableEq, Repr

/-- `updateEPC` (round1.py lines 117-121):

    data["compileTE"] = data["compileTE"] + cEPC
    data["compileT"] = data["compileT"] + 1
    data["EPC"] = float(data["compileTE"]) / (data["compileT"])
    return data
-/
def updateEPC (cEPC : ℤ) (data : StudentData) : StudentData :=
  let d1 := { data with compileTE := data.compileTE + cEPC }
  let d2 := { d1 with compileT := d1.compileT + 1 }
  { d2 with EPC := (d2.compileTE : ℚ) / (d2.compileT : ℚ) }

/-- A fresh record with all-zero counters, used to instantiate the
worked examples of the spec (`accumulateCompileErrorRate(0, 0, 5)` ...). -/
def zeroRecord : StudentData :=
  { id := 0, sid := 0, compileT := 0, compileF := 0, compileTE := 0,
    compileP := 0, EPC := 0, bSR := 0, pSR := 0, level := 0, LV := 0 }

/-- One classified character changes exactly one stack length: the stack of
its own token class grows by one, every other stack keeps its length. -/
theorem scanChar_lengths (st : Stacks) (ch : Char) :
    (scanChar st ch).oparen.length = st.oparen.length + (if ch = '(' then 1 else 0) ∧
    (scanChar st ch).cparen.length = st.cparen.length + (if ch = ')' then 1 else 0) ∧
    (scanChar st ch).obracket.length = st.obracket.length + (if ch = '{' then 1 else 0) ∧
    (scanChar st ch).cbracket.length = st.cbracket.length + (if ch = '}' then 1 else 0) := by
  unfold scanChar
  by_cases h1 : ch = '{' <;> by_cases h2 : ch = '(' <;>
    by_cases h3 : ch = '}' <;> by_cases h4 : ch = ')' <;>
    simp_all

/-- Scanning a line adds, to each stack's length, the number of occurrences
of its token in the line. -/
theorem scanLine_lengths (line : Line) : ∀ st : Stacks,
    (scanLine st line).oparen.length = st.oparen.length + countCharLine '(' line ∧
    (scanLine st line).cparen.length = st.cparen.length + countCharLine ')' line ∧
    (scanLine st line).obracket.length = st.obracket.length + countCharLine '{' line ∧
    (scanLine st line).cbracket.length = st.cbracket.length + countCharLine '}' line := by
  induction line with
  | nil => intro st; simp [scanLine, countCharLine]
  | cons ch rest ih =>
    intro st
    have h := scanChar_lengths st ch
    have h2 := ih (scanChar st ch)
    simp only [scanLine, List.foldl_cons] at h2 ⊢
    simp only [countCharLine]
    omega

/-- Scanning a file adds, to each stack's length, the number of occurrences
of its token in the file. -/
theorem scanFile_lengths (lines : List Line) : ∀ st : Stacks,
    (scanFile st lines).oparen.length = st.oparen.length + countChar '(' lines ∧
    (scanFile st lines).cparen.length = st.cparen.length + countChar ')' lines ∧
    (scanFile st lines).obracket.length = st.obracket.length + countChar '{' lines ∧
    (scanFile st lines).cbracket.length = st.cbracket.length + countChar '}' lines := by
  induction lines with
  | nil => intro st; simp [scanFile, countChar]
  | cons l rest ih =>
    intro st
    have h := scanLine_lengths l st
    have h2 := ih (scanLine st l)
    simp only [scanFile, List.foldl_cons] at h2 ⊢
    simp only [countChar]
    omega

/-- The pairing loop pops `min fuel (min opens closes)` elements off each
stack and counts that many successful pairs. -/
theorem pairLoop_lengths : ∀ (fuel : Nat) (opens closes : List Char) (sp score : Nat),
    (pairLoop fuel opens closes sp score).1.length
        = opens.length - min fuel (min opens.length closes.length) ∧
    (pairLoop fuel opens closes sp score).2.1.length
        = closes.length - min fuel (min opens.length closes.length) ∧
    (pairLoop fuel opens closes sp score).2.2.1
        = sp + min fuel (min opens.length closes.length) := by
  intro fuel
  induction fuel with
  | zero => intro opens closes sp score; simp [pairLoop]
  | succ k ih =>
    intro opens closes sp score
    by_cases h : opens.length = 0 ∨ closes.length = 0
    · rw [pairLoop, if_pos h]
      dsimp only
      refine ⟨?_, ?_, ?_⟩ <;> omega
    · rw [pairLoop, if_neg h]
      have h2 := ih opens.dropLast closes.dropLast (sp + 1) score
      rw [List.length_dropLast, List.length_dropLast] at h2
      refine ⟨?_, ?_, ?_⟩ <;> omega

/-- Master lemma: the intermediate quantities of `checkFile`, run from the
freshly initialised stacks, as functions of the four token counts of the
input.  Both pairing loops yield `min(opens, closes)` pairs, leave
`opened + closed - 2*min` tokens on the stacks, and the totals are
`max(opens, closes)`. -/
theorem checkFileCore_counts (lines : List Line) :
    (checkFileCore lines initialStacks).pSP
        = min (countChar '(' lines) (countChar ')' lines) ∧
    (checkFileCore lines initialStacks).pFP
        = countChar '(' lines + countChar ')' lines
          - 2 * min (countChar '(' lines) (countChar ')' lines) ∧
    (checkFileCore lines initialStacks).totalPPairs
        = max (countChar '(' lines) (countChar ')' lines) ∧
    (checkFileCore lines initialStacks).bSP
        = min (countChar '{' lines) (countChar '}' lines) ∧
    (checkFileCore lines initialStacks).bFP
        = countChar '{' lines + countChar '}' lines
          - 2 * min (countChar '{' lines) (countChar '}' lines) ∧
    (checkFileCore lines initialStacks).totalBPairs
        = max (countChar '{' lines) (countChar '}' lines) := by
  have hs := scanFile_lengths lines initialStacks
  have hp := pairLoop_lengths (scanFile initialStacks lines).oparen.length
    (scanFile initialStacks lines).oparen (scanFile initialStacks lines).cparen 0 0
  have hb := pairLoop_lengths (scanFile initialStacks lines).obracket.length
    (scanFile initialStacks lines).obracket (scanFile initialStacks lines).cbracket 0 0
  simp only [show initialStacks.oparen.length = 0 from rfl,
    show initialStacks.cparen.length = 0 from rfl,
    show initialStacks.obracket.length = 0 from rfl,
    show initialStacks.cbracket.length = 0 from rfl, Nat.zero_add] at hs
  simp only [checkFileCore]
  refine ⟨?_, ?_, ?_, ?_, ?_, ?_⟩ <;> omega

/-- When neither total is zero, `checkFile` returns the two quotients of
successful pairs over totals. -/
theorem checkFile_eval (lines : List Line) (st : Stacks)
    (hP : (checkFileCore lines st).totalPPairs ≠ 0)
    (hB : (checkFileCore lines st).totalBPairs ≠ 0) :
    (checkFile lines st).1
      = some (((checkFileCore lines st).pSP : ℚ) / ((checkFileCore lines st).totalPPairs : ℚ),
              ((checkFileCore lines st).bSP : ℚ) / ((checkFileCore lines st).totalBPairs : ℚ)) := by
  simp [checkFile, hP, hB]

/-- C1: the claim states that the paren success rate is
`min(o, c) / (o + c)` with `totalConsidered = o + c`, so `1/3` on a line
with 2 opens and 1 close.  The code instead divides by
`totalPPairs = pFP + pSP = max(o, c)`: on the line `"((){}"` (paren opens
2, paren closes 1, one brace pair so the brace division succeeds) it
returns paren rate `1/2`, not `1/3`. -/
theorem checkFile_paren_rate_is_min_over_max :
    countChar '(' [String.toList "((){}"] = 2 ∧
    countChar ')' [String.toList "((){}"] = 1 ∧
    (checkFileCore [String.toList "((){}"] initialStacks).totalPPairs = 2 ∧
    (checkFile [String.toList "((){}"] initialStacks).1 = some ((1 : ℚ)/2, 1) ∧
    (1 : ℚ)/2 ≠ (1 : ℚ)/3 := by
  refine ⟨by decide, by decide, by decide, ?_, by norm_num⟩
  rw [checkFile_eval _ _ (by decide) (by decide)]
  rw [show (checkFileCore [String.toList "((){}"] initialStacks).pSP = 1 from rfl,
      show (checkFileCore [String.toList "((){}"] initialStacks).totalPPairs = 2 from rfl,
      show (checkFileCore [String.toList "((){}"] initialStacks).bSP = 1 from rfl,
      show (checkFileCore [String.toList "((){}"] initialStacks).totalBPairs = 1 from rfl]
  norm_num

/-- C2: on any input, each family's pairing loop produces
`successfulPairs = min(o, c)` successful pairs and leaves
`leftover = |o - c|` unmatched tokens, where `o` and `c` are the counts of
that family's opening and closing tokens in the input. -/
theorem checkFile_pairs_minimum_leftover_absdiff (lines : List Line) :
    (checkFileCore lines initialStacks).pSP
        = min (countChar '(' lines) (countChar ')' lines) ∧
    (checkFileCore lines initialStacks).pFP
        = ((countChar '(' lines : ℤ) - (countChar ')' lines : ℤ)).natAbs ∧
    (checkFileCore lines initialStacks).bSP
        = min (countChar '{' lines) (countChar '}' lines) ∧
    (checkFileCore lines initialStacks).bFP
        = ((countChar '{' lines : ℤ) - (countChar '}' lines : ℤ)).natAbs := by
  have h := checkFileCore_counts lines
  refine ⟨h.1, ?_, h.2.2.2.1, ?_⟩ <;> omega

/-- C3: the claim states `checkFile` never raises and yields rate `0.0`
for a family with `totalConsidered = 0`, hence `(0.0, 0.0)` on empty
input.  The code divides by `totalPPairs` and `totalBPairs` without any
zero guard: on empty input both totals are `0` and Python raises
`ZeroDivisionError` (modelled as `none`) instead of returning
`(0.0, 0.0)`. -/
theorem checkFile_empty_input_divzero :
    checkFile [] initialStacks = (none, initialStacks) ∧
    (checkFile [] initialStacks).1 ≠ some ((0 : ℚ), (0 : ℚ)) := by
  refine ⟨by decide, by decide⟩

/-- C4 counterexample: on the single line `"()"` the paren family has
`opened + closed = 2` tokens but `successfulPairs + leftover = 1 + 0 = 1`,
so the claimed invariant `successfulPairs + leftover == opened + closed`
fails. -/
theorem checkFile_conservation_counterexample :
    ¬ ((checkFileCore [['(', ')']] initialStacks).pSP
          + (checkFileCore [['(', ')']] initialStacks).pFP
        = countChar '(' [['(', ')']] + countChar ')' [['(', ')']]) := by
  decide

/-- C4 amended: each successful pair consumes one open and one close, so
the conservation law satisfied by the code is
`2 * successfulPairs + leftover == opened + closed` for each family;
equivalently `successfulPairs + leftover == max(opened, closed)`. -/
theorem checkFile_token_conservation (lines : List Line) :
    (2 * (checkFileCore lines initialStacks).pSP
        + (checkFileCore lines initialStacks).pFP
      = countChar '(' lines + countChar ')' lines) ∧
    ((checkFileCore lines initialStacks).pSP
        + (checkFileCore lines initialStacks).pFP
      = max (countChar '(' lines) (countChar ')' lines)) ∧
    (2 * (checkFileCore lines initialStacks).bSP
        + (checkFileCore lines initialStacks).bFP
      = countChar '{' lines + countChar '}' lines) ∧
    ((checkFileCore lines initialStacks).bSP
        + (checkFileCore lines initialStacks).bFP
      = max (countChar '{' lines) (countChar '}' lines)) := by
  have h := checkFileCore_counts lines
  refine ⟨?_, ?_, ?_, ?_⟩ <;> omega

/-- C5: on the single line `"(){}"` each family has one open and one
close; both loops pair them, no tokens are left over, and `checkFile`
returns the rates `(1.0, 1.0)`. -/
theorem checkFile_balanced_line_rates :
    (checkFile [String.toList "(){}"] initialStacks).1 = some ((1 : ℚ), (1 : ℚ)) := by
  rw [checkFile_eval _ _ (by decide) (by decide)]
  rw [show (checkFileCore [String.toList "(){}"] initialStacks).pSP = 1 from rfl,
      show (checkFileCore [String.toList "(){}"] initialStacks).totalPPairs = 1 from rfl,
      show (checkFileCore [String.toList "(){}"] initialStacks).bSP = 1 from rfl,
      show (checkFileCore [String.toList "(){}"] initialStacks).totalBPairs = 1 from rfl]
  norm_num

/-- C6: the claim states `checkFile` is pure — identical input gives
identical output and no shared state affects later calls.  The code
mutates the module-level stacks and consumes the global file handle: a
first call on `"((){}"` returns `(1/2, 1)` and leaves a `'('` on the
shared `oparen` stack with the file exhausted; the second call then sees
no lines and the mutated stacks and raises `ZeroDivisionError` (`none`)
instead of repeating the first result. -/
theorem checkFile_shared_state_changes_result :
    (checkFile [String.toList "((){}"] initialStacks).1 = some ((1 : ℚ)/2, 1) ∧
    (checkFile [String.toList "((){}"] initialStacks).2.oparen = ['('] ∧
    (checkFile [String.toList "((){}"] initialStacks).2 ≠ initialStacks ∧
    (checkFile [] (checkFile [String.toList "((){}"] initialStacks).2).1 = none ∧
    (checkFile [] (checkFile [String.toList "((){}"] initialStacks).2).1
      ≠ (checkFile [String.toList "((){}"] initialStacks).1 := by
  refine ⟨?_, by decide, by decide, by decide, by decide⟩
  rw [checkFile_eval _ _ (by decide) (by decide)]
  rw [show (checkFileCore [String.toList "((){}"] initialStacks).pSP = 1 from rfl,
      show (checkFileCore [String.toList "((){}"] initialStacks).totalPPairs = 2 from rfl,
      show (checkFileCore [String.toList "((){}"] initialStacks).bSP = 1 from rfl,
      show (checkFileCore [String.toList "((){}"] initialStacks).totalBPairs = 1 from rfl]
  norm_num

/-- C7: for non-negative prior totals, prior count and new error count,
`updateEPC` adds the new errors to `compileTE`, bumps `compileT` by one,
and sets `EPC` to the float quotient of the new total by the new count;
in particular the chain starting from the all-zero record with error
counts 5 then 3 passes through `(5, 1, 5.0)` and `(8, 2, 4.0)`. -/
theorem updateEPC_accumulates (d : StudentData) (e : ℤ)
    (hTE : 0 ≤ d.compileTE) (hT : 0 ≤ d.compileT) (he : 0 ≤ e) :
    (updateEPC e d).compileTE = d.compileTE + e ∧
    (updateEPC e d).compileT = d.compileT + 1 ∧
    (updateEPC e d).EPC = ((d.compileTE + e : ℤ) : ℚ) / ((d.compileT + 1 : ℤ) : ℚ) ∧
    ((updateEPC 5 zeroRecord).compileTE = 5 ∧
      (updateEPC 5 zeroRecord).compileT = 1 ∧
      (updateEPC 5 zeroRecord).EPC = 5) ∧
    ((updateEPC 3 (updateEPC 5 zeroRecord)).compileTE = 8 ∧
      (updateEPC 3 (updateEPC 5 zeroRecord)).compileT = 2 ∧
      (updateEPC 3 (updateEPC 5 zeroRecord)).EPC = 4) := by
  refine ⟨?_, ?_, ?_, by norm_num [updateEPC, zeroRecord], by norm_num [updateEPC, zeroRecord]⟩ <;>
    simp [updateEPC]

/-- Witness for C7 at the concrete record `zeroRecord` and error count 5. -/
theorem updateEPC_accumulates_witness :
    (updateEPC 5 zeroRecord).compileTE = zeroRecord.compileTE + 5 ∧
    (updateEPC 5 zeroRecord).compileT = zeroRecord.compileT + 1 ∧
    (updateEPC 5 zeroRecord).EPC
      = ((zeroRecord.compileTE + 5 : ℤ) : ℚ) / ((zeroRecord.compileT + 1 : ℤ) : ℚ) ∧
    ((updateEPC 5 zeroRecord).compileTE = 5 ∧
      (updateEPC 5 zeroRecord).compileT = 1 ∧
      (updateEPC 5 zeroRecord).EPC = 5) ∧
    ((updateEPC 3 (updateEPC 5 zeroRecord)).compileTE = 8 ∧
      (updateEPC 3 (updateEPC 5 zeroRecord)).compileT = 2 ∧
      (updateEPC 3 (updateEPC 5 zeroRecord)).EPC = 4) :=
  updateEPC_accumulates zeroRecord 5 (by decide) (by decide) (by decide)

/-- C8 counterexample: `updateEPC` performs no validation whatsoever.
Fed the negative error count `-1` on a record with totals `(5, 1)`, it
returns normally and silently accumulates the value: the total drops to
`4`, the count rises to `2`, and `EPC` becomes `2` — there is no
InvalidArgument failure. -/
theorem updateEPC_accepts_negative_counterexample :
    (updateEPC (-1) (updateEPC 5 zeroRecord)).compileTE = 4 ∧
    (updateEPC (-1) (updateEPC 5 zeroRecord)).compileT = 2 ∧
    (updateEPC (-1) (updateEPC 5 zeroRecord)).EPC = 2 := by
  norm_num [updateEPC, zeroRecord]

/-- C8 amended: `updateEPC` accepts every integer error count, negative
ones included, and accumulates it into the record unconditionally — it
never fails with an InvalidArgument condition. -/
theorem updateEPC_no_validation (d : StudentData) (e : ℤ) :
    (updateEPC e d).compileTE = d.compileTE + e ∧
    (updateEPC e d).compileT = d.compileT + 1 := by
  simp [updateEPC]

/-- C9: `getTotalPairs` returns the length of the longer list (the common
length when the lengths agree); the `if/elif/elif` chain is exhaustive,
so the implicit `None` fall-through is unreachable. -/
theorem getTotalPairs_eq_max (list1 : List α) (list2 : List β) :
    getTotalPairs list1 list2 = some (max list1.length list2.length) := by
  unfold getTotalPairs
  split_ifs with h1 h2 h3
  · simp only [Option.some.injEq]; omega
  · simp only [Option.some.injEq]; omega
  · simp only [Option.some.injEq]; omega
  · exfalso; omega

/-- C10: `updateEPC` writes only the keys `compileTE`, `compileT` and
`EPC`; every other field of the student record is returned unchanged. -/
theorem updateEPC_frame (d : StudentData) (e : ℤ) :
    (updateEPC e d).id = d.id ∧
    (updateEPC e d).sid = d.sid ∧
    (updateEPC e d).compileF = d.compileF ∧
    (updateEPC e d).compileP = d.compileP ∧
    (updateEPC e d).bSR = d.bSR ∧
    (updateEPC e d).pSR = d.pSR ∧
    (updateEPC e d).level = d.level ∧
    (updateEPC e d).LV = d.LV := by
  simp [updateEPC]

end Jabberwocky
